import Mathlib

/-!
# Vectorscope source of obs-color-monitor (`src/vectorscope.c`)

A shallow embedding of the vectorscope source and the properties of its
colour conversion, histogram synthesis, graticule geometry and frame pipeline.

Conventions of the embedding

* C `int` values are `Int`; C integer division (truncating toward zero) is
  `Int.tdiv`; `uint32_t` values are `Nat` reduced modulo `2 ^ 32` where the
  code computes with them; `uint8_t` reads are reduced modulo `256`.
* C `float` values are elements of an ordered field `K`, arithmetic taken as
  exact.  `hypotf` (libm) is a parameter of the functions that call it.
* Calls into libobs are inputs of the functions (`host_env`) or recorded
  outputs (`gs_op`).
-/

set_option autoImplicit false

namespace Vectorscope

/-! ## Constants and converter macros (lines 28-41) -/

/-- Macro `#define VS_SIZE 256` -/
def VS_SIZE : Nat := 256

/-- Macro `#define SOURCE_CHECK_NS 3000000000` -/
def SOURCE_CHECK_NS : Nat := 3000000000

/-- Macro `#define N_GRATICULES 18` -/
def N_GRATICULES : Nat := 18

/-- Macro `#define SKIN_TONE_LINE 0x99ABCB // BGR` -/
def SKIN_TONE_LINE : Int := 0x99ABCB

/-- Macro `#define RGB2Y_601(r, g, b) ((+306*(r) +601*(g) +117*(b))/1024 +  0)` -/
def RGB2Y_601 (r g b : Int) : Int := Int.tdiv (306 * r + 601 * g + 117 * b) 1024 + 0

/-- Macro `#define RGB2U_601(r, g, b) ((-150*(r) -296*(g) +448*(b))/1024 +128)` -/
def RGB2U_601 (r g b : Int) : Int := Int.tdiv (-150 * r - 296 * g + 448 * b) 1024 + 128

/-- Macro `#define RGB2V_601(r, g, b) ((+448*(r) -374*(g) - 72*(b))/1024 +128)` -/
def RGB2V_601 (r g b : Int) : Int := Int.tdiv (448 * r - 374 * g - 72 * b) 1024 + 128

/-- Macro `#define RGB2Y_709(r, g, b) ((+218*(r) +732*(g) + 74*(b))/1024 + 16)` -/
def RGB2Y_709 (r g b : Int) : Int := Int.tdiv (218 * r + 732 * g + 74 * b) 1024 + 16

/-- Macro `#define RGB2U_709(r, g, b) ((-102*(r) -346*(g) +450*(b))/1024 +128)` -/
def RGB2U_709 (r g b : Int) : Int := Int.tdiv (-102 * r - 346 * g + 450 * b) 1024 + 128

/-- Macro `#define RGB2V_709(r, g, b) ((+450*(r) -408*(g) - 40*(b))/1024 +128)` -/
def RGB2V_709 (r g b : Int) : Int := Int.tdiv (450 * r - 408 * g - 40 * b) 1024 + 128

/-- Conversion of a C `int` to `uint8_t`: reduction modulo 256. -/
def to_uint8 (n : Int) : Int := n % 256

/-- Conversion of a 64-bit or unsigned 32-bit value to C `int` (two's complement wrap). -/
def to_int (n : Int) : Int :=
  let m := n % 4294967296
  if m < 2147483648 then m else m - 4294967296

/-! ## Data model (lines 43-75) -/

/-- Arguments of the `set_v3_rect` and `set_v2_uv` calls that fill one label
quad of `graticule_vbuf`: the rectangle `(x, y, w, h)` and the atlas slice
`(u0, v0, u1, v1)`. -/
structure label_quad (K : Type) where
  x : K
  y : K
  w : K
  h : K
  u0 : K
  v0 : K
  u1 : K
  v1 : K

/-- Fields of `struct vss_source` that the modelled functions read or write.
Pointers are `Option`s (`none` is `NULL`); a vertex buffer is the list of
what was written into it; `tex_vs` holds the image last uploaded to the
texture; `stagesurface` holds the size it was created with. -/
structure vss_source (K : Type) where
  stagesurface : Option (Nat × Nat)
  known_width : Nat
  known_height : Nat
  tex_vs : Option (List Nat)
  tex_buf : Option (List Nat)
  target_check_time : Nat
  weak_target : Option Nat
  target_name : Option String
  graticule_vbuf : Option (List (label_quad K))
  graticule_line_vbuf : Option (List (K × K))
  target_scale : Int
  intensity : Int
  graticule : Int
  graticule_skintone_color : Int
  colorspace : Int
  colorspace_calc : Int
  update_graticule : Bool
  bypass_vectorscope : Bool
  rendered : Bool

/-- The settings object read by `vss_update`: one field per key, integers as
the `long long` returned by `obs_data_get_int`. -/
structure obs_data where
  target_name : String
  target_scale : Int
  intensity : Int
  graticule : Int
  graticule_skintone_color : Int
  colorspace : Int
  bypass_vectorscope : Bool

/-! ## `vss_update` (lines 145-188) -/

/-- Function `vss_update`; `now` is the value of `os_gettime_ns()`. -/
def vss_update {K : Type} (src : vss_source K) (settings : obs_data) (now : Nat) : vss_source K :=
  let target_name := settings.target_name
  -- if (!src->target_name || strcmp(target_name, src->target_name))
  let src :=
    if src.target_name.isNone || src.target_name != some target_name then
      { src with
        target_name := some target_name
        weak_target := none
        target_check_time := (now + 2 ^ 64 - SOURCE_CHECK_NS) % 2 ^ 64 }
    else src
  let src := { src with target_scale := to_int settings.target_scale }
  let src := if src.target_scale < 1 then { src with target_scale := 1 } else src
  let src := { src with intensity := to_int settings.intensity }
  let src := if src.intensity < 1 then { src with intensity := 1 } else src
  let src := { src with graticule := to_int settings.graticule }
  -- (int)obs_data_get_int(...) & 0xFFFFFF
  let graticule_skintone_color := to_int settings.graticule_skintone_color % 16777216
  let src :=
    if graticule_skintone_color != src.graticule_skintone_color then
      { src with graticule_skintone_color := graticule_skintone_color, update_graticule := true }
    else src
  let colorspace := to_int settings.colorspace
  let src :=
    if colorspace != src.colorspace then
      { src with colorspace := colorspace, update_graticule := true }
    else src
  { src with bypass_vectorscope := settings.bypass_vectorscope }

/-- Function `vss_get_defaults`, lines 190-195: the settings a new source
starts from; keys without a default read as zero, empty or false. -/
def vss_get_defaults : obs_data :=
  { target_name := ""
    target_scale := 2
    intensity := 0
    graticule := 1
    graticule_skintone_color := SKIN_TONE_LINE
    colorspace := 0
    bypass_vectorscope := false }

/-- Function `vss_create`, lines 85-120, on the modelled fields: the
zero-filled structure of `bzalloc`, then `vss_update`. -/
def vss_create {K : Type} (settings : obs_data) (now : Nat) : vss_source K :=
  let src : vss_source K :=
    { stagesurface := none
      known_width := 0
      known_height := 0
      tex_vs := none
      tex_buf := none
      target_check_time := 0
      weak_target := none
      target_name := none
      graticule_vbuf := none
      graticule_line_vbuf := none
      target_scale := 0
      intensity := 0
      graticule := 0
      graticule_skintone_color := 0
      colorspace := 0
      colorspace_calc := 0
      update_graticule := false
      bypass_vectorscope := false
      rendered := false }
  vss_update src settings now

/-! ## `vss_draw_vectorscope` (lines 251-281) -/

/-- Index expression `u + VS_SIZE*(255-v)` of line 271. -/
def vs_index (u v : Nat) : Nat := u + VS_SIZE * (255 - v)

/-- Lines 271-272: `uint8_t *c = dbuf + (u + VS_SIZE*(255-v)); if (*c<255) ++*c;` -/
def vs_hit (dbuf : List Nat) (u v : Nat) : List Nat :=
  let c := vs_index u v
  if dbuf.getD c 0 < 255 then dbuf.set c (dbuf.getD c 0 + 1) else dbuf

/-- Loop of lines 257-258, `for (int i=0; i<VS_SIZE*VS_SIZE; i++) dbuf[i] = 0;`:
`n` iterations remain, the next index is `i`. -/
def vs_clear : Nat → Nat → List Nat → List Nat
  | 0, _, dbuf => dbuf
  | n + 1, i, dbuf => vs_clear n (i + 1) (dbuf.set i 0)

/-- Inner loop of lines 266-273 over one row: `n` pixels remain, `vd` is the
byte offset of the read pointer from `video_data`.  Returns the advanced
pointer and the histogram. -/
def vs_row (video_data : Nat → Nat) : Nat → Nat → List Nat → Nat × List Nat
  | 0, vd, dbuf => (vd, dbuf)
  | n + 1, vd, dbuf =>
    let u := video_data vd % 256
    let v := video_data (vd + 1) % 256
    -- b and a (offsets vd+2, vd+3) are read and not used
    vs_row video_data n (vd + 4) (vs_hit dbuf u v)

/-- Outer loop of lines 264-275: `n` rows remain; after each row the pointer
is advanced by `vd_add`. -/
def vs_rows (video_data : Nat → Nat) (width vd_add : Nat) : Nat → Nat → List Nat → List Nat
  | 0, _, dbuf => dbuf
  | n + 1, vd, dbuf =>
    let r := vs_row video_data width vd dbuf
    vs_rows video_data width vd_add n (r.1 + vd_add) r.2

/-- Function `vss_draw_vectorscope`.  `video_data` gives the byte at each
offset of the mapped surface, `video_line` is its row stride. -/
def vss_draw_vectorscope {K : Type} (src : vss_source K) (video_data : Nat → Nat)
    (video_line : Nat) : vss_source K :=
  -- if (!src->tex_buf) src->tex_buf = bzalloc(VS_SIZE*VS_SIZE);
  let tex_buf := match src.tex_buf with
    | none => List.replicate (VS_SIZE * VS_SIZE) 0
    | some b => b
  let dbuf := vs_clear (VS_SIZE * VS_SIZE) 0 tex_buf
  let height := src.known_height
  let width := src.known_width
  -- uint32_t vd_add = video_line - width*4;
  let vd_add := (video_line + 2 ^ 32 - (width * 4) % 2 ^ 32) % 2 ^ 32
  let dbuf := vs_rows video_data width vd_add height 0 dbuf
  -- gs_texture_create(..., &src->tex_buf, ...) or gs_texture_set_image(src->tex_vs, src->tex_buf, ...)
  { src with tex_buf := some dbuf, tex_vs := some dbuf }

/-- Specification side of the histogram: the number `n(U,V)` of pixels
`(x, y)` with `x < w`, `y < h` of a buffer with row stride `s` whose bytes at
offsets `y*s + 4x` and `y*s + 4x + 1` are `U` and `V`. -/
def pixel_count (video_data : Nat → Nat) (w h s U V : Nat) : Nat :=
  ((Finset.range w ×ˢ Finset.range h).filter fun p =>
    video_data (p.2 * s + 4 * p.1) % 256 = U ∧ video_data (p.2 * s + 4 * p.1 + 1) % 256 = V).card

/-! ## `vss_render_target` (lines 283-380) -/

/-- What the host reports about a live source: `obs_source_get_width` and
`obs_source_get_height` (both `uint32_t`). -/
structure obs_source where
  width : Nat
  height : Nat
  deriving DecidableEq, Repr

/-- Answers of the host and the graphics subsystem during one call of
`vss_render_target`. -/
structure host_env where
  /-- Result of `obs_weak_source_get_source` on a weak reference (`none` is `NULL`). -/
  obs_weak_source_get_source : Nat → Option obs_source
  /-- Field `ovi.base_width` after `obs_get_video_info(&ovi)`. -/
  base_width : Nat
  /-- Field `ovi.base_height` after `obs_get_video_info(&ovi)`. -/
  base_height : Nat
  /-- Result of `gs_texrender_begin(src->texrender, width, height)`. -/
  texrender_begin : Bool
  /-- Whether the global `vss_effect` is loaded (non-`NULL`). -/
  vss_effect : Bool
  /-- Result of `gs_texrender_begin(src->texrender_uv, width, height)`. -/
  texrender_uv_begin : Bool
  /-- Whether `gs_texrender_get_texture(src->texrender)` is non-`NULL`. -/
  texrender_texture : Bool
  /-- Result of `gs_stagesurface_map`: the mapped bytes and the row stride, or `none` on failure. -/
  stagesurface_map : Option ((Nat → Nat) × Nat)

/-- Pipeline steps that `vss_render_target` performs in a frame, in order. -/
inductive gs_op where
  /-- The target (or, with `main_texture`, the main output through
  `obs_render_main_texture`) was rendered into `texrender` at `width x height`. -/
  | captured (width height : Int) (main_texture : Bool)
  /-- The shader technique of that name was run into `texrender_uv`. -/
  | converted (technique : String)
  /-- The mapped surface was handed to `vss_draw_vectorscope`. -/
  | accumulated
  deriving DecidableEq, Repr

/-- C division of two `int`s: undefined (`none`) for a zero divisor and for
`INT_MIN / -1`, truncating toward zero otherwise. -/
def c_div (a b : Int) : Option Int :=
  if b = 0 then none
  else if a = -2147483648 ∧ b = -1 then none
  else some (Int.tdiv a b)

/-- Technique chosen on line 353: `src->colorspace_calc==1 ? "ConvertRGB_UV601" : "ConvertRGB_UV709"`. -/
def convert_technique (colorspace_calc : Int) : String :=
  if colorspace_calc = 1 then "ConvertRGB_UV601" else "ConvertRGB_UV709"

/-- Lines 309-375 of `vss_render_target`: the capture, conversion and
accumulation that follow the size check. -/
def vss_render_target_capture {K : Type} (src : vss_source K) (env : host_env)
    (target : Option obs_source) (width height : Int) : vss_source K × List gs_op :=
  if env.texrender_begin then
    let ops := [gs_op.captured width height target.isNone]
    -- if (width != src->known_width || height != src->known_height)
    let src :=
      if width.toNat != src.known_width || height.toNat != src.known_height then
        { src with
          stagesurface := some (width.toNat, height.toNat)
          known_width := width.toNat
          known_height := height.toNat }
      else src
    if src.bypass_vectorscope then (src, ops)
    else if env.vss_effect && env.texrender_uv_begin then
      let ops :=
        if env.texrender_texture then
          ops ++ [gs_op.converted (convert_technique src.colorspace_calc)]
        else ops
      match env.stagesurface_map with
      | some (video_data, video_linesize) =>
        (vss_draw_vectorscope src video_data video_linesize, ops ++ [gs_op.accumulated])
      | none => (src, ops)
    else (src, ops)
  else (src, [])

/-- Line 289: `src->weak_target ? obs_weak_source_get_source(src->weak_target) : NULL`. -/
def vss_target {K : Type} (src : vss_source K) (env : host_env) : Option obs_source :=
  match src.weak_target with
  | some weak => env.obs_weak_source_get_source weak
  | none => none

/-- Lines 293-303: `target_width` and `target_height` as C `int`s, from the
target when there is one and from the base size of the video otherwise. -/
def vss_target_size (env : host_env) (target : Option obs_source) : Int × Int :=
  match target with
  | some t => (to_int t.width, to_int t.height)
  | none => (to_int env.base_width, to_int env.base_height)

/-- Function `vss_render_target`.  The result is `none` where the C code has
undefined behaviour (null `target_name` dereferenced, division by zero). -/
def vss_render_target {K : Type} (src : vss_source K) (env : host_env) :
    Option (vss_source K × List gs_op) :=
  if src.rendered then some (src, [])
  else
    let src := { src with rendered := true }
    let target := vss_target src env
    -- if (!target && *src->target_name) return;
    let skip : Option Bool :=
      if target.isNone then
        match src.target_name with
        | some name => some (name != "")
        | none => none
      else some false
    match skip with
    | none => none
    | some true => some (src, [])
    | some false =>
      let target_width := (vss_target_size env target).1
      let target_height := (vss_target_size env target).2
      -- int width = target_width / src->target_scale; int height = target_height / src->target_scale;
      match c_div target_width src.target_scale, c_div target_height src.target_scale with
      | some width, some height =>
        if width ≤ 0 || height ≤ 0 then some (src, [])
        else some (vss_render_target_capture src env target width height)
      | _, _ => none

/-! ## Colour-space resolution in `vss_render` (lines 476-497) -/

/-- Values of `ovi.colorspace` (`enum video_colorspace` of libobs) as far as
the `switch` of line 482 tells them apart. -/
inductive video_colorspace where
  | VIDEO_CS_601
  | VIDEO_CS_709
  | VIDEO_CS_OTHER
  deriving DecidableEq, Repr

/-- Lines 476-497 of `vss_render`.  `ovi` is `none` when `obs_get_video_info`
returns false, and the reported colour space otherwise. -/
def vss_render_resolve {K : Type} (src : vss_source K) (ovi : Option video_colorspace) :
    vss_source K :=
  if src.update_graticule || src.colorspace_calc < 1 then
    let src := { src with colorspace_calc := src.colorspace, update_graticule := false }
    let src :=
      if src.colorspace_calc < 1 || 2 < src.colorspace_calc then
        match ovi with
        | some video_colorspace.VIDEO_CS_601 => { src with colorspace_calc := 1 }
        | some _ => { src with colorspace_calc := 2 }
        | none => src
      else src
    { src with graticule_vbuf := none, graticule_line_vbuf := none }
  else src

/-! ## `create_graticule_vbuf` (lines 382-468) -/

section graticule

variable {K : Type} [LinearOrderedField K]

/-- Table `pp[2][12][2]` of lines 392-405 (copied there from the FFmpeg
vectorscope filter): row 0 is 601, row 1 is 709. -/
def pp (K : Type) [LinearOrderedField K] : List (List (K × K)) :=
  [ [ (90, 240), (240, 110), (166, 16),
      (16, 146), (54, 34), (202, 222),
      (44, 142), (156, 44), (72, 58),
      (184, 198), (100, 212), (212, 114) ],
    [ (102, 240), (240, 118), (154, 16),
      (16, 138), (42, 26), (214, 230),
      (212, 120), (109, 212), (193, 204),
      (63, 52), (147, 44), (44, 136) ] ]

/-- Row `pp[ppi]` for a C `int` index; an index outside the table is
undefined behaviour (`none`). -/
def pp_row (ppi : Int) : Option (List (K × K)) :=
  if 0 ≤ ppi then (pp K)[ppi.toNat]? else none

/-- Body of the label loop, lines 410-417, for table point `p` and index `i`. -/
def graticule_label (p : K × K) (i : Nat) : label_quad K :=
  let x := p.1
  let y := 256 - p.2
  let xy : K × K :=
    if x < 72 then (x, y + 20)
    else if x > 184 then (x, y - 20)
    else if y > 128 then (x + 20, y)
    else (x - 20, y)
  -- set_v3_rect(vdata->points + i*6, x-8, y-8, 16, 16);
  -- set_v2_uv(tvarray + i*6, i/6.f, 0.f, (i+1)/6.f, 1.f);
  { x := xy.1 - 8, y := xy.2 - 8, w := 16, h := 16,
    u0 := (i : K) / 6, v0 := 0, u1 := ((i + 1 : Nat) : K) / 6, v1 := 1 }

/-- Array `box[16][2]` of lines 427-436. -/
def box (K : Type) [LinearOrderedField K] : List (K × K) :=
  [ (-6, -6), (-2, -6),
    (-6, -6), (-6, -2),
    (6, -6), (2, -6),
    (6, -6), (6, -2),
    (-6, 6), (-2, 6),
    (-6, 6), (-6, 2),
    (6, 6), (2, 6),
    (6, 6), (6, 2) ]

/-- Vertices emitted by the box loop, lines 424-439, for the table row `tab`. -/
def graticule_boxes (tab : List (K × K)) : List (K × K) :=
  tab.flatMap fun p =>
    let x := p.1
    let y := 256 - p.2
    (box K).map fun d => (x + d.1, y + d.2)

/-- Lines 443-455: the integer `(U, V)` of the skin tone colour (packed
`0xBBGGRR`) under `colorspace_calc`; `>> n & 0xFF` on an `int` is floor
division by `2 ^ n` followed by reduction modulo 256. -/
def skin_tone_uv (colorspace_calc color : Int) : Int × Int :=
  let stl_b := color / 65536 % 256
  let stl_g := color / 256 % 256
  let stl_r := color % 256
  if colorspace_calc = 1 then (RGB2U_601 stl_r stl_g stl_b, RGB2V_601 stl_r stl_g stl_b)
  else (RGB2U_709 stl_r stl_g stl_b, RGB2V_709 stl_r stl_g stl_b)

/-- Lines 456-459: the chrominance point `(stl_u, stl_v)` of the line end as
it stands when line 461 emits it, or `none` when the test of line 457 fails. -/
def skin_tone_point (hypotf : K → K → K) (colorspace_calc color : Int) : Option (K × K) :=
  let uv := skin_tone_uv colorspace_calc color
  let stl_u : K := (uv.1 : K)
  let stl_v : K := (uv.2 : K)
  let stl_norm := hypotf (stl_u - 128) (stl_v - 128)
  if stl_norm > 1 then
    some ((stl_u - 128) * 128 / stl_norm + 128, (stl_v - 128) * 128 / stl_norm + 128)
  else none

/-- Lines 441-462: the vertices of the skin tone line. -/
def skin_tone_line (hypotf : K → K → K) (colorspace_calc color : Int) : List (K × K) :=
  match skin_tone_point hypotf colorspace_calc color with
  | some (stl_u, stl_v) => [(128, 128), (stl_u, 255 - stl_v)]
  | none => []

/-- Function `create_graticule_vbuf`.  The result is `none` where the C code
indexes `pp` out of bounds. -/
def create_graticule_vbuf (hypotf : K → K → K) (src : vss_source K) : Option (vss_source K) :=
  if src.graticule_vbuf.isSome then some src
  else
    let ppi := src.colorspace_calc - 1
    match pp_row ppi with
    | none => none
    | some tab =>
      let labels := List.zipWith graticule_label (tab.take 6) (List.range 6)
      let lines := graticule_boxes tab
        ++ skin_tone_line hypotf src.colorspace_calc src.graticule_skintone_color
      some { src with graticule_vbuf := some labels, graticule_line_vbuf := some lines }

end graticule

/-! ## Concrete inputs used by the witnesses -/

/-- A host with a 1920x1080 base canvas and no live sources, on which
`gs_texrender_begin(src->texrender, ...)` succeeds and the effect is not loaded. -/
def host_1080p : host_env :=
  { obs_weak_source_get_source := fun _ => none
    base_width := 1920
    base_height := 1080
    texrender_begin := true
    vss_effect := false
    texrender_uv_begin := false
    texrender_texture := false
    stagesurface_map := none }

/-- A host with a 1280x720 base canvas on which the weak reference 1 resolves
to a live 1920x1080 source, and `gs_texrender_begin(src->texrender, ...)` succeeds. -/
def host_camera : host_env :=
  { obs_weak_source_get_source := fun weak => if weak = 1 then some ⟨1920, 1080⟩ else none
    base_width := 1280
    base_height := 720
    texrender_begin := true
    vss_effect := false
    texrender_uv_begin := false
    texrender_texture := false
    stagesurface_map := none }

/-- Default settings with the target name "Camera". -/
def camera_settings : obs_data := { vss_get_defaults with target_name := "Camera" }

/-- A source created for the target "Camera" whose weak reference was since
resolved to the reference 1 (as `vss_tick` does). -/
def camera_source : vss_source ℚ :=
  { (vss_create camera_settings 0 : vss_source ℚ) with weak_target := some 1 }

/-- A new source with default settings after the resolution step of
`vss_render` on a host that reports 709. -/
def source_709 : vss_source ℚ :=
  vss_render_resolve (vss_create vss_get_defaults 0) (some video_colorspace.VIDEO_CS_709)

/-- A new source with default settings after the resolution step of
`vss_render` on a host that reports 601. -/
def source_601 : vss_source ℚ :=
  vss_render_resolve (vss_create vss_get_defaults 0) (some video_colorspace.VIDEO_CS_601)

/-- Bytes of a mapped surface with row stride 12 holding a 2-pixel-wide solid
frame: every pixel is `(U, V, 0, 0) = (103, 240, 0, 0)`, the conversion of red
`(255, 0, 0)` by the 709 macros, and the 4 bytes of padding that end each row
are 9. -/
def solid_red_frame (o : Nat) : Nat :=
  if o % 12 < 8 then (if o % 4 = 0 then 103 else if o % 4 = 1 then 240 else 0) else 9

/-- A source on a 709 host whose capture size is 2x2 and whose histogram
buffer is not allocated yet. -/
def small_frame_source : vss_source ℚ :=
  { source_709 with known_width := 2, known_height := 2 }

/-- A new source with default settings (selection auto, graticule enabled)
after the resolution step of `vss_render` on a host whose
`obs_get_video_info` returns false. -/
def source_no_video_info : vss_source ℚ :=
  vss_render_resolve (vss_create vss_get_defaults 0) none

/-! # Theorems -/

/-! ## Properties of the converter macros -/

/-- Truncating division by 1024 of a numerator in the range the converter
macros can produce from 8-bit channels. -/
theorem tdiv_1024_bounds (n : Int) (lo : -114240 ≤ n) (hi : n ≤ 114750) :
    -111 ≤ Int.tdiv n 1024 ∧ Int.tdiv n 1024 ≤ 112 := by
  rcases le_total 0 n with h | h
  · rw [Int.tdiv_eq_ediv h (by norm_num)]
    omega
  · have h2 : Int.tdiv n 1024 = -((-n) / 1024) := by
      rw [← Int.tdiv_eq_ediv (by omega) (by norm_num), Int.neg_tdiv, neg_neg]
    rw [h2]
    omega

/-- The four chrominance macros stay within `[17, 240]` on 8-bit channels. -/
theorem converter_range (r g b : Int) (hr : 0 ≤ r ∧ r ≤ 255) (hg : 0 ≤ g ∧ g ≤ 255)
    (hb : 0 ≤ b ∧ b ≤ 255) :
    (17 ≤ RGB2U_601 r g b ∧ RGB2U_601 r g b ≤ 240) ∧
    (17 ≤ RGB2V_601 r g b ∧ RGB2V_601 r g b ≤ 240) ∧
    (17 ≤ RGB2U_709 r g b ∧ RGB2U_709 r g b ≤ 240) ∧
    (17 ≤ RGB2V_709 r g b ∧ RGB2V_709 r g b ≤ 240) := by
  unfold RGB2U_601 RGB2V_601 RGB2U_709 RGB2V_709
  have h1 := tdiv_1024_bounds (-150 * r - 296 * g + 448 * b) (by omega) (by omega)
  have h2 := tdiv_1024_bounds (448 * r - 374 * g - 72 * b) (by omega) (by omega)
  have h3 := tdiv_1024_bounds (-102 * r - 346 * g + 450 * b) (by omega) (by omega)
  have h4 := tdiv_1024_bounds (450 * r - 408 * g - 40 * b) (by omega) (by omega)
  omega

/-- The channels that lines 443-445 extract from any `int` colour are 8-bit,
so the skin tone `(U, V)` is within `[17, 240]` under either standard. -/
theorem skin_tone_uv_range (colorspace_calc color : Int) :
    (17 ≤ (skin_tone_uv colorspace_calc color).1 ∧ (skin_tone_uv colorspace_calc color).1 ≤ 240) ∧
    (17 ≤ (skin_tone_uv colorspace_calc color).2 ∧ (skin_tone_uv colorspace_calc color).2 ≤ 240) := by
  have hb : 0 ≤ color / 65536 % 256 ∧ color / 65536 % 256 ≤ 255 := by omega
  have hg : 0 ≤ color / 256 % 256 ∧ color / 256 % 256 ≤ 255 := by omega
  have hr : 0 ≤ color % 256 ∧ color % 256 ≤ 255 := by omega
  have h := converter_range _ _ _ hr hg hb
  unfold skin_tone_uv
  by_cases hc : colorspace_calc = 1
  · simp only [hc, if_true]
    exact ⟨h.1, h.2.1⟩
  · simp only [hc, if_false]
    exact ⟨h.2.2.1, h.2.2.2⟩

/-- C5: for every gray level `k` in `0..255` the four integer converter
macros return 128 on `R = G = B = k`, so pure gray maps to
`(U, V) = (128, 128)` under both BT.601 and BT.709. -/
theorem gray_is_chroma_neutral (k : Int) (h0 : 0 ≤ k) (h1 : k ≤ 255) :
    RGB2U_601 k k k = 128 ∧ RGB2V_601 k k k = 128 ∧
    RGB2U_709 k k k = 128 ∧ RGB2V_709 k k k = 128 := by
  unfold RGB2U_601 RGB2V_601 RGB2U_709 RGB2V_709
  rw [Int.tdiv_eq_ediv (by omega) (by norm_num), Int.tdiv_eq_ediv (by omega) (by norm_num),
    Int.tdiv_eq_ediv (by omega) (by norm_num), Int.tdiv_eq_ediv (by omega) (by norm_num)]
  omega

/-- Witness of C5 at the gray level 200. -/
theorem gray_is_chroma_neutral_witness :
    (0 : Int) ≤ 200 ∧ (200 : Int) ≤ 255 ∧
    (RGB2U_601 200 200 200 = 128 ∧ RGB2V_601 200 200 200 = 128 ∧
     RGB2U_709 200 200 200 = 128 ∧ RGB2V_709 200 200 200 = 128) :=
  ⟨by decide, by decide, gray_is_chroma_neutral 200 (by decide) (by decide)⟩

/-- C6: for all `R, G, B` in `0..255` and both standards, the `U` and `V`
computed by the scalar macros lie in `[0, 255]`, and reducing them to an
unsigned byte leaves them unchanged; the same holds for the `(U, V)`
that `create_graticule_vbuf` computes from any configured colour. -/
theorem converter_outputs_are_bytes (r g b : Int) (hr : 0 ≤ r ∧ r ≤ 255)
    (hg : 0 ≤ g ∧ g ≤ 255) (hb : 0 ≤ b ∧ b ≤ 255) :
    (0 ≤ RGB2U_601 r g b ∧ RGB2U_601 r g b ≤ 255 ∧ to_uint8 (RGB2U_601 r g b) = RGB2U_601 r g b) ∧
    (0 ≤ RGB2V_601 r g b ∧ RGB2V_601 r g b ≤ 255 ∧ to_uint8 (RGB2V_601 r g b) = RGB2V_601 r g b) ∧
    (0 ≤ RGB2U_709 r g b ∧ RGB2U_709 r g b ≤ 255 ∧ to_uint8 (RGB2U_709 r g b) = RGB2U_709 r g b) ∧
    (0 ≤ RGB2V_709 r g b ∧ RGB2V_709 r g b ≤ 255 ∧ to_uint8 (RGB2V_709 r g b) = RGB2V_709 r g b) ∧
    (∀ colorspace_calc color : Int,
      0 ≤ (skin_tone_uv colorspace_calc color).1 ∧ (skin_tone_uv colorspace_calc color).1 ≤ 255 ∧
      0 ≤ (skin_tone_uv colorspace_calc color).2 ∧ (skin_tone_uv colorspace_calc color).2 ≤ 255) := by
  have h := converter_range r g b hr hg hb
  unfold to_uint8
  refine ⟨⟨?_, ?_, ?_⟩, ⟨?_, ?_, ?_⟩, ⟨?_, ?_, ?_⟩, ⟨?_, ?_, ?_⟩, ?_⟩
  any_goals omega
  intro cs color
  have h2 := skin_tone_uv_range cs color
  omega

/-- Witness of C6 at pure blue, where `U` reaches its largest value under 709. -/
theorem converter_outputs_are_bytes_witness :
    RGB2U_709 0 0 255 = 240 ∧ to_uint8 (RGB2U_709 0 0 255) = RGB2U_709 0 0 255 :=
  ⟨by decide,
   (converter_outputs_are_bytes 0 0 255 (by decide) (by decide) (by decide)).2.2.1.2.2⟩

/-! ## The histogram index -/

/-- C2: the index `U + 256*(255-V)` used by `vss_draw_vectorscope` maps
`{0..255} x {0..255}` into `{0..65535}`, injectively and onto, with
`index(0,255) = 0` and `index(255,0) = 65535`. -/
theorem vs_index_bijective :
    (∀ U V, U < 256 → V < 256 → vs_index U V < VS_SIZE * VS_SIZE) ∧
    (∀ U V U2 V2, U < 256 → V < 256 → U2 < 256 → V2 < 256 →
      vs_index U V = vs_index U2 V2 → U = U2 ∧ V = V2) ∧
    (∀ i, i < 65536 → ∃ U V, U < 256 ∧ V < 256 ∧ vs_index U V = i) ∧
    VS_SIZE * VS_SIZE = 65536 ∧ vs_index 0 255 = 0 ∧ vs_index 255 0 = 65535 := by
  unfold vs_index VS_SIZE
  refine ⟨?_, ?_, ?_, by norm_num, by norm_num, by norm_num⟩
  · intro U V hU hV
    omega
  · intro U V U2 V2 hU hV hU2 hV2 h
    omega
  · intro i hi
    refine ⟨i % 256, 255 - i / 256, ?_, ?_, ?_⟩ <;> omega

/-- Witness of C2: the pixel `(U, V) = (102, 240)` indexes inside the buffer. -/
theorem vs_index_bijective_witness : vs_index 102 240 < VS_SIZE * VS_SIZE :=
  vs_index_bijective.1 102 240 (by decide) (by decide)

/-! ## Colour-space resolution -/

/-- What the resolution step of `vss_render` computes when it runs with a
selection in `{auto, 601, 709}`: whenever the selection is explicit or
`obs_get_video_info` succeeds, `colorspace_calc` is 1 (601) or 2 (709), and it
is 1 exactly when the selection is 601 or the selection is auto and the host
reports 601; with selection auto and no video info it is left at 0.  When it
is 1 the technique, the table row and the skin tone macros are those of 601. -/
theorem vss_render_resolve_spec {K : Type} [LinearOrderedField K] (src : vss_source K)
    (ovi : Option video_colorspace)
    (hrun : src.update_graticule = true ∨ src.colorspace_calc < 1)
    (hsel : src.colorspace = 0 ∨ src.colorspace = 1 ∨ src.colorspace = 2) :
    (src.colorspace = 0 ∧ ovi = none → (vss_render_resolve src ovi).colorspace_calc = 0) ∧
    (¬ (src.colorspace = 0 ∧ ovi = none) →
      ((vss_render_resolve src ovi).colorspace_calc = 1 ∨
        (vss_render_resolve src ovi).colorspace_calc = 2) ∧
      ((vss_render_resolve src ovi).colorspace_calc = 1 ↔
        (src.colorspace = 1 ∨
          (src.colorspace = 0 ∧ ovi = some video_colorspace.VIDEO_CS_601))) ∧
      ((vss_render_resolve src ovi).colorspace_calc = 2 ↔
        ¬ (src.colorspace = 1 ∨
          (src.colorspace = 0 ∧ ovi = some video_colorspace.VIDEO_CS_601)))) ∧
    (src.colorspace = 1 ∨ (src.colorspace = 0 ∧ ovi = some video_colorspace.VIDEO_CS_601) →
      (vss_render_resolve src ovi).colorspace_calc = 1 ∧
      convert_technique (vss_render_resolve src ovi).colorspace_calc = "ConvertRGB_UV601" ∧
      (pp_row ((vss_render_resolve src ovi).colorspace_calc - 1) : Option (List (K × K)))
        = (pp K)[0]? ∧
      ∀ color, skin_tone_uv (vss_render_resolve src ovi).colorspace_calc color =
        (RGB2U_601 (color % 256) (color / 256 % 256) (color / 65536 % 256),
         RGB2V_601 (color % 256) (color / 256 % 256) (color / 65536 % 256))) := by
  have hcond : (src.update_graticule || decide (src.colorspace_calc < 1)) = true := by
    rcases hrun with h | h <;> simp [h]
  rcases hsel with h | h | h <;> rcases ovi with _ | _ | _ | _ <;>
    simp [vss_render_resolve, hcond, h, convert_technique, pp_row, skin_tone_uv]

/-- C4, the code at the input where it departs from the claim: a new source
with default settings (selection auto, graticule enabled, `update_graticule`
set by `vss_update`) on a host whose `obs_get_video_info` returns false.
After the resolution step `colorspace_calc` is 0, neither 601 (1) nor 709 (2).
The conversion technique of line 353 and the `switch` of line 446 both fall
back to 709 for this value, but `create_graticule_vbuf`, reached in the same
`vss_render` call (also after `vss_render_target`), computes `ppi = -1` and
reads `pp[-1]`, outside the table. -/
theorem colorspace_unresolved_without_video_info :
    (vss_create vss_get_defaults 0 : vss_source ℚ).colorspace = 0 ∧
    (vss_create vss_get_defaults 0 : vss_source ℚ).update_graticule = true ∧
    (vss_create vss_get_defaults 0 : vss_source ℚ).graticule = 1 ∧
    source_no_video_info.colorspace_calc = 0 ∧
    ¬ (source_no_video_info.colorspace_calc = 1 ∨ source_no_video_info.colorspace_calc = 2) ∧
    convert_technique source_no_video_info.colorspace_calc = "ConvertRGB_UV709" ∧
    skin_tone_uv source_no_video_info.colorspace_calc SKIN_TONE_LINE
      = (RGB2U_709 203 171 153, RGB2V_709 203 171 153) ∧
    source_no_video_info.graticule_vbuf.isNone = true ∧
    source_no_video_info.colorspace_calc - 1 = -1 ∧
    (pp_row (source_no_video_info.colorspace_calc - 1) : Option (List (ℚ × ℚ))).isNone = true ∧
    (create_graticule_vbuf (fun _ _ => 0) source_no_video_info).isNone = true ∧
    (vss_render_target source_no_video_info host_1080p).isSome = true ∧
    ((vss_render_target source_no_video_info host_1080p).bind fun r =>
      create_graticule_vbuf (fun _ _ => 0) r.1).isNone = true := by
  decide

/-! ## The frame pipeline -/

/-- When `gs_texrender_begin` succeeds, the capture step records the capture
at the requested size first, and leaves `known_width x known_height` at that size. -/
theorem vss_render_target_capture_spec {K : Type} (src : vss_source K) (env : host_env)
    (target : Option obs_source) (width height : Int) (hb : env.texrender_begin = true) :
    ∃ ops, (vss_render_target_capture src env target width height).2
        = gs_op.captured width height target.isNone :: ops ∧
      (vss_render_target_capture src env target width height).1.known_width = width.toNat ∧
      (vss_render_target_capture src env target width height).1.known_height = height.toNat := by
  unfold vss_render_target_capture
  simp only [hb, if_true]
  split_ifs with h1 h2 h3 h4 h5 h6 h7
  all_goals first
    | exact ⟨_, rfl, rfl, rfl⟩
    | (simp only [bne_iff_ne, ne_eq, Bool.or_eq_true, not_or, not_not] at h1
       exact ⟨_, rfl, h1.1.symm, h1.2.symm⟩)
    | (split
       · exact ⟨_, rfl, rfl, rfl⟩
       · exact ⟨_, rfl, rfl, rfl⟩)
    | (simp only [bne_iff_ne, ne_eq, Bool.or_eq_true, not_or, not_not] at h1
       split
       · exact ⟨_, rfl, h1.1.symm, h1.2.symm⟩
       · exact ⟨_, rfl, h1.1.symm, h1.2.symm⟩)

/-- C8 (amended): in `vss_render_target`, whenever no target is resolved
and a target name IS configured (the name is non-empty), the rest of the
frame is skipped: nothing is captured, converted or accumulated and no state
other than `rendered` changes.  When no target is resolved and the name is
empty, the frame is not skipped: the main output is captured at
`(base_width/scale, base_height/scale)` whenever both quotients are positive
and `gs_texrender_begin` succeeds. -/
theorem frame_skip_when_named_target_missing {K : Type} (src : vss_source K) (env : host_env)
    (name : String) (htarget : vss_target src env = none)
    (hname : src.target_name = some name) :
    (name ≠ "" → vss_render_target src env = some ({ src with rendered := true }, [])) ∧
    (name = "" → src.rendered = false → env.texrender_begin = true →
      ∀ width height,
        c_div (to_int env.base_width) src.target_scale = some width →
        c_div (to_int env.base_height) src.target_scale = some height →
        0 < width → 0 < height →
        ∃ s ops, vss_render_target src env
            = some (s, gs_op.captured width height true :: ops) ∧
          s.known_width = width.toNat ∧ s.known_height = height.toNat) := by
  obtain ⟨ss, kw, kh, tv, tb, tct, wt, tn, gv, glv, ts, it, gr, gsc, cs, csc, ug, bv, rd⟩ := src
  simp only [vss_target] at htarget
  simp only at hname
  subst hname
  constructor
  · intro hne
    unfold vss_render_target
    by_cases hr : rd = true
    · simp [hr]
    · have hbne : (name != "") = true := by simpa [bne_iff_ne] using hne
      simp [hr, vss_target, htarget, hbne]
  · intro he hr hb width height hw hh hwpos hhpos
    subst he
    simp only at hr hw hh
    subst hr
    obtain ⟨ops, h1, h2, h3⟩ :=
      vss_render_target_capture_spec
        ({ stagesurface := ss, known_width := kw, known_height := kh, tex_vs := tv, tex_buf := tb,
           target_check_time := tct, weak_target := wt, target_name := some "",
           graticule_vbuf := gv, graticule_line_vbuf := glv, target_scale := ts, intensity := it,
           graticule := gr, graticule_skintone_color := gsc, colorspace := cs,
           colorspace_calc := csc, update_graticule := ug, bypass_vectorscope := bv,
           rendered := true } : vss_source K) env none width height hb
    refine ⟨_, ops, ?_, h2, h3⟩
    have hnle : ¬ (width ≤ 0 ∨ height ≤ 0) := by omega
    unfold vss_render_target
    have hbne : (("" : String) != "") = false := by decide
    simp only [vss_target, htarget, vss_target_size, hw, hh, hbne]
    have h1b : gs_op.captured width height true :: ops = _ := h1.symm
    rw [h1b]
    simp [hnle]

/-- Witness of C8: a source named "Camera" that is not found. -/
theorem frame_skip_when_named_target_missing_witness :
    vss_render_target (vss_create camera_settings 0 : vss_source ℚ) host_1080p
    = some ({ (vss_create camera_settings 0 : vss_source ℚ) with rendered := true }, []) :=
  (frame_skip_when_named_target_missing (vss_create camera_settings 0 : vss_source ℚ) host_1080p
    "Camera" rfl rfl).1 (by decide)

/-- Counterexample to C8 as stated: a new source with default settings has no
resolved target and the empty target name; on a 1920x1080 host its first frame
is not skipped: the main output is captured at 960x540 and `known_width`,
`known_height` change from 0 to 960 and 540. -/
theorem frame_skip_counterexample :
    vss_target (vss_create vss_get_defaults 0 : vss_source ℚ) host_1080p = none ∧
    (vss_create vss_get_defaults 0 : vss_source ℚ).target_name = some "" ∧
    (vss_create vss_get_defaults 0 : vss_source ℚ).known_width = 0 ∧
    (vss_render_target (vss_create vss_get_defaults 0 : vss_source ℚ) host_1080p).map
        (fun r => (r.2, r.1.known_width, r.1.known_height))
      = some ([gs_op.captured 960 540 true], 960, 540) := by
  decide

/-- What `vss_update` leaves in the fields that `vss_render_target` reads. -/
theorem vss_update_fields {K : Type} (src : vss_source K) (settings : obs_data) (now : Nat) :
    (vss_update src settings now).target_scale = max (to_int settings.target_scale) 1 ∧
    (vss_update src settings now).intensity = max (to_int settings.intensity) 1 ∧
    (vss_update src settings now).target_name = some settings.target_name ∧
    (vss_update src settings now).rendered = src.rendered := by
  unfold vss_update
  simp only [apply_ite vss_source.target_scale, apply_ite vss_source.intensity,
    apply_ite vss_source.target_name, apply_ite vss_source.rendered, ite_self]
  refine ⟨?_, ?_, ?_⟩
  · split_ifs <;> omega
  · split_ifs <;> omega
  · refine ⟨?_, trivial⟩
    split_ifs with h
    · rfl
    · simp only [bne_iff_ne, ne_eq, Bool.or_eq_true, not_or, not_not] at h
      exact h.2

/-- The conversion to `int` is the identity on the range of `int`. -/
theorem to_int_of_range (n : Int) (lo : -2147483648 ≤ n) (hi : n < 2147483648) : to_int n = n := by
  unfold to_int
  simp only
  split_ifs <;> omega

/-- Every step recorded by the capture stage is the capture at the requested
size, a conversion or the accumulation. -/
theorem vss_render_target_capture_ops {K : Type} (src : vss_source K) (env : host_env)
    (target : Option obs_source) (width height : Int) (op : gs_op)
    (h : op ∈ (vss_render_target_capture src env target width height).2) :
    op = gs_op.captured width height target.isNone ∨ (∃ t, op = gs_op.converted t) ∨
      op = gs_op.accumulated := by
  unfold vss_render_target_capture at h
  simp only [apply_ite Prod.snd] at h
  cases hm : env.stagesurface_map <;> simp only [hm] at h <;> split_ifs at h <;>
    simp at h <;> aesop

/-- Unfolding of `vss_render_target` for a frame not yet rendered, with a
non-null target name and a scale of at least 1: no undefined behaviour, and
the frame is skipped, rejected by the size check, or handed to the capture stage. -/
theorem vss_render_target_eq {K : Type} (src : vss_source K) (env : host_env) (name : String)
    (hname : src.target_name = some name) (hscale : 1 ≤ src.target_scale)
    (hr : src.rendered = false) :
    vss_render_target src env =
      if vss_target src env = none ∧ name ≠ "" then some ({ src with rendered := true }, [])
      else if Int.tdiv (vss_target_size env (vss_target src env)).1 src.target_scale ≤ 0 ∨
          Int.tdiv (vss_target_size env (vss_target src env)).2 src.target_scale ≤ 0 then
        some ({ src with rendered := true }, [])
      else some (vss_render_target_capture { src with rendered := true } env (vss_target src env)
        (Int.tdiv (vss_target_size env (vss_target src env)).1 src.target_scale)
        (Int.tdiv (vss_target_size env (vss_target src env)).2 src.target_scale)) := by
  have hdiv : ∀ a : Int, c_div a src.target_scale = some (Int.tdiv a src.target_scale) := by
    intro a
    unfold c_div
    have h0 : src.target_scale ≠ 0 := by omega
    have h1 : ¬ (a = -2147483648 ∧ src.target_scale = -1) := by omega
    simp [h0, h1]
  have e : vss_target { src with rendered := true } env = vss_target src env := rfl
  unfold vss_render_target
  simp only [e]
  generalize vss_target src env = tg
  cases tg with
  | none =>
    by_cases hn : name = ""
    · subst hn
      simp [hr, hname, hdiv]
    · have hbne : (name != "") = true := by simpa [bne_iff_ne] using hn
      simp [hr, hname, hbne, hn]
  | some t => simp [hr, hdiv]

/-- C9: for every configured scale and intensity, `vss_update` stores
`target_scale = max(s,1)` and `intensity = max(i,1)` (`s`, `i` as converted
to `int`, which is the setting itself whenever it is in the range of `int`),
so the divisor in `vss_render_target` is never zero and the call is defined;
whenever the frame is captured, the capture size is
`(W div max(s,1), H div max(s,1))` with truncating division and both
quotients are positive; and a frame that is neither already rendered nor
skipped for a missing named target is captured whenever both quotients are
positive and `gs_texrender_begin` succeeds. -/
theorem scale_clamp_and_capture_size {K : Type} (src : vss_source K) (settings : obs_data)
    (now : Nat) (env : host_env) :
    (vss_update src settings now).target_scale = max (to_int settings.target_scale) 1 ∧
    (vss_update src settings now).intensity = max (to_int settings.intensity) 1 ∧
    (-2147483648 ≤ settings.target_scale → settings.target_scale < 2147483648 →
      (vss_update src settings now).target_scale = max settings.target_scale 1) ∧
    (-2147483648 ≤ settings.intensity → settings.intensity < 2147483648 →
      (vss_update src settings now).intensity = max settings.intensity 1) ∧
    (vss_update src settings now).target_scale ≠ 0 ∧
    (∃ s ops, vss_render_target (vss_update src settings now) env = some (s, ops) ∧
      (∀ w h m, gs_op.captured w h m ∈ ops →
        w = Int.tdiv (vss_target_size env (vss_target (vss_update src settings now) env)).1
              (max (to_int settings.target_scale) 1) ∧
        h = Int.tdiv (vss_target_size env (vss_target (vss_update src settings now) env)).2
              (max (to_int settings.target_scale) 1) ∧
        0 < w ∧ 0 < h) ∧
      (src.rendered = false →
        (vss_target (vss_update src settings now) env ≠ none ∨ settings.target_name = "") →
        env.texrender_begin = true →
        0 < Int.tdiv (vss_target_size env (vss_target (vss_update src settings now) env)).1
              (max (to_int settings.target_scale) 1) →
        0 < Int.tdiv (vss_target_size env (vss_target (vss_update src settings now) env)).2
              (max (to_int settings.target_scale) 1) →
        gs_op.captured
          (Int.tdiv (vss_target_size env (vss_target (vss_update src settings now) env)).1
              (max (to_int settings.target_scale) 1))
          (Int.tdiv (vss_target_size env (vss_target (vss_update src settings now) env)).2
              (max (to_int settings.target_scale) 1))
          (vss_target (vss_update src settings now) env).isNone ∈ ops)) := by
  obtain ⟨hts, hit, hname, hrd⟩ := vss_update_fields src settings now
  refine ⟨hts, hit, ?_, ?_, ?_, ?_⟩
  · intro lo hi
    rw [hts, to_int_of_range _ lo hi]
  · intro lo hi
    rw [hit, to_int_of_range _ lo hi]
  · rw [hts]
    omega
  · have hscale : 1 ≤ (vss_update src settings now).target_scale := by
      rw [hts]
      omega
    rw [← hts]
    generalize vss_update src settings now = u at hname hrd hscale ⊢
    by_cases hr : u.rendered = true
    · refine ⟨u, [], ?_, ?_, ?_⟩
      · unfold vss_render_target
        simp [hr]
      · intro w h m hm
        simp at hm
      · intro hr2
        rw [← hrd, hr] at hr2
        cases hr2
    · have hr2 : u.rendered = false := by simpa using hr
      rw [vss_render_target_eq u env settings.target_name hname hscale hr2]
      split_ifs with h1 h2
      · refine ⟨{ u with rendered := true }, [], rfl, ?_, ?_⟩
        · intro w h m hm
          simp at hm
        · intro _ h3
          rcases h3 with h3 | h3
          · exact absurd h1.1 h3
          · exact absurd h3 h1.2
      · refine ⟨{ u with rendered := true }, [], rfl, ?_, ?_⟩
        · intro w h m hm
          simp at hm
        · intro _ _ _ h4 h5
          omega
      · refine ⟨(vss_render_target_capture { u with rendered := true } env (vss_target u env)
            (Int.tdiv (vss_target_size env (vss_target u env)).1 u.target_scale)
            (Int.tdiv (vss_target_size env (vss_target u env)).2 u.target_scale)).1,
          (vss_render_target_capture { u with rendered := true } env (vss_target u env)
            (Int.tdiv (vss_target_size env (vss_target u env)).1 u.target_scale)
            (Int.tdiv (vss_target_size env (vss_target u env)).2 u.target_scale)).2, rfl, ?_, ?_⟩
        · intro w h m hm
          rcases vss_render_target_capture_ops _ _ _ _ _ _ hm with h3 | ⟨t, h3⟩ | h3
          · injection h3 with e1 e2 e3
            subst e1 e2
            omega
          · cases h3
          · cases h3
        · intro _ _ hb _ _
          obtain ⟨ops, h3, _⟩ := vss_render_target_capture_spec { u with rendered := true } env
            (vss_target u env)
            (Int.tdiv (vss_target_size env (vss_target u env)).1 u.target_scale)
            (Int.tdiv (vss_target_size env (vss_target u env)).2 u.target_scale) hb
          rw [h3]
          exact List.mem_cons_self _ _

/-- Witness of C9: scale 4 on a 1920x1080 target is captured at 480x270. -/
theorem scale_clamp_and_capture_size_witness :
    (vss_update camera_source { camera_settings with target_scale := 4 } 0).target_scale = 4 ∧
    (vss_render_target
        (vss_update camera_source { camera_settings with target_scale := 4 } 0) host_camera).map
      (fun r => (r.2, r.1.known_width, r.1.known_height))
      = some ([gs_op.captured 480 270 false], 480, 270) ∧
    (vss_update camera_source { camera_settings with target_scale := 0 } 0).target_scale = 1 ∧
    (vss_update camera_source { camera_settings with target_scale := -3 } 0).target_scale = 1 :=
  ⟨by decide, by decide,
   (scale_clamp_and_capture_size camera_source { camera_settings with target_scale := 0 } 0
      host_camera).1,
   by decide⟩

/-! ## Graticule geometry -/

section graticule_theorems

variable {K : Type} [LinearOrderedField K]

/-- The six label quads that `create_graticule_vbuf` writes for the 601 table. -/
theorem labels_601 (tab : List (K × K)) (htab : (pp K)[0]? = some tab) :
    List.zipWith graticule_label (tab.take 6) (List.range 6)
    = [ { x := 62, y := 8, w := 16, h := 16, u0 := 0 / 6, v0 := 0, u1 := 1 / 6, v1 := 1 },
        { x := 232, y := 118, w := 16, h := 16, u0 := 1 / 6, v0 := 0, u1 := 2 / 6, v1 := 1 },
        { x := 178, y := 232, w := 16, h := 16, u0 := 2 / 6, v0 := 0, u1 := 3 / 6, v1 := 1 },
        { x := 8, y := 122, w := 16, h := 16, u0 := 3 / 6, v0 := 0, u1 := 4 / 6, v1 := 1 },
        { x := 46, y := 234, w := 16, h := 16, u0 := 4 / 6, v0 := 0, u1 := 5 / 6, v1 := 1 },
        { x := 194, y := 6, w := 16, h := 16, u0 := 5 / 6, v0 := 0, u1 := 6 / 6, v1 := 1 } ] := by
  simp only [pp, List.getElem?_cons_zero, List.getElem?_cons_succ, Option.some.injEq] at htab
  subst htab
  simp [graticule_label, List.range, List.range.loop]
  norm_num

/-- The six label quads that `create_graticule_vbuf` writes for the 709 table. -/
theorem labels_709 (tab : List (K × K)) (htab : (pp K)[1]? = some tab) :
    List.zipWith graticule_label (tab.take 6) (List.range 6)
    = [ { x := 74, y := 8, w := 16, h := 16, u0 := 0 / 6, v0 := 0, u1 := 1 / 6, v1 := 1 },
        { x := 232, y := 110, w := 16, h := 16, u0 := 1 / 6, v0 := 0, u1 := 2 / 6, v1 := 1 },
        { x := 166, y := 232, w := 16, h := 16, u0 := 2 / 6, v0 := 0, u1 := 3 / 6, v1 := 1 },
        { x := 8, y := 130, w := 16, h := 16, u0 := 3 / 6, v0 := 0, u1 := 4 / 6, v1 := 1 },
        { x := 34, y := 242, w := 16, h := 16, u0 := 4 / 6, v0 := 0, u1 := 5 / 6, v1 := 1 },
        { x := 206, y := -2, w := 16, h := 16, u0 := 5 / 6, v0 := 0, u1 := 6 / 6, v1 := 1 } ] := by
  simp only [pp, List.getElem?_cons_zero, List.getElem?_cons_succ, Option.some.injEq] at htab
  subst htab
  simp [graticule_label, List.range, List.range.loop]
  norm_num

/-- Unfolding of `create_graticule_vbuf` when the buffers are to be built and
`colorspace_calc` is 601 or 709: the call is defined and stores the label
quads of the first six table points and the box vertices of all twelve,
followed by the skin tone line. -/
theorem create_graticule_vbuf_eq (hypotf : K → K → K) (src : vss_source K)
    (hnew : src.graticule_vbuf = none) (i : Nat) (tab : List (K × K))
    (hcs : src.colorspace_calc = (i : Int) + 1) (htab : (pp K)[i]? = some tab) :
    create_graticule_vbuf hypotf src = some { src with
      graticule_vbuf := some (List.zipWith graticule_label (tab.take 6) (List.range 6))
      graticule_line_vbuf := some (graticule_boxes tab
        ++ skin_tone_line hypotf src.colorspace_calc src.graticule_skintone_color) } := by
  unfold create_graticule_vbuf
  have h1 : (pp_row (src.colorspace_calc - 1) : Option (List (K × K))) = some tab := by
    unfold pp_row
    rw [hcs]
    simp [htab]
  simp [hnew, h1]

/-- C10 (amended): for the 601 table all six 16x16 label quads computed by
`create_graticule_vbuf` lie within the 256x256 display area.  For the 709
table the quads of the labelled points 0..3 do; the quads of point 4, table
entry (42, 26), and point 5, table entry (214, 230), lie within it horizontally
and reach 2 units past it vertically: they span `y` from 242 to 258 and from
-2 to 14. -/
theorem label_quads_extent (hypotf : K → K → K) (src : vss_source K)
    (hnew : src.graticule_vbuf = none) :
    (src.colorspace_calc = 1 →
      ∃ s labels, create_graticule_vbuf hypotf src = some s ∧
        s.graticule_vbuf = some labels ∧ labels.length = 6 ∧
        ∀ q ∈ labels, q.w = 16 ∧ q.h = 16 ∧
          0 ≤ q.x ∧ q.x + q.w ≤ 256 ∧ 0 ≤ q.y ∧ q.y + q.h ≤ 256) ∧
    (src.colorspace_calc = 2 →
      ∃ s q0 q1 q2 q3 q4 q5, create_graticule_vbuf hypotf src = some s ∧
        s.graticule_vbuf = some [q0, q1, q2, q3, q4, q5] ∧
        (∀ q ∈ [q0, q1, q2, q3], q.w = 16 ∧ q.h = 16 ∧
          0 ≤ q.x ∧ q.x + q.w ≤ 256 ∧ 0 ≤ q.y ∧ q.y + q.h ≤ 256) ∧
        (∀ q ∈ [q4, q5], q.w = 16 ∧ q.h = 16 ∧ 0 ≤ q.x ∧ q.x + q.w ≤ 256) ∧
        q4.y = 242 ∧ q4.y + q4.h = 258 ∧ q5.y = -2 ∧ q5.y + q5.h = 14) := by
  constructor
  · intro hcs
    refine ⟨_, _, create_graticule_vbuf_eq hypotf src hnew 0 _ (by simp [hcs]) rfl,
      congrArg some (labels_601 _ rfl), by simp, ?_⟩
    · intro q hq
      simp only [List.mem_cons, List.mem_singleton, List.not_mem_nil, or_false] at hq
      rcases hq with h | h | h | h | h | h <;> subst h <;> norm_num
  · intro hcs
    refine ⟨_, _, _, _, _, _, _,
      create_graticule_vbuf_eq hypotf src hnew 1 _ (by simp [hcs]) rfl,
      congrArg some (labels_709 _ rfl), ?_, ?_, ?_⟩
    · intro q hq
      simp only [List.mem_cons, List.mem_singleton, List.not_mem_nil, or_false] at hq
      rcases hq with h | h | h | h <;> subst h <;> norm_num
    · intro q hq
      simp only [List.mem_cons, List.mem_singleton, List.not_mem_nil, or_false] at hq
      rcases hq with h | h <;> subst h <;> norm_num
    · norm_num

/-- Witness of C10 (amended) on a host that reports 601. -/
theorem label_quads_extent_witness :
    source_601.graticule_vbuf = none ∧ source_601.colorspace_calc = 1 ∧
    ∃ s labels, create_graticule_vbuf (fun _ _ => 0) source_601 = some s ∧
      s.graticule_vbuf = some labels ∧ labels.length = 6 ∧
      ∀ q ∈ labels, q.w = 16 ∧ q.h = 16 ∧
        0 ≤ q.x ∧ q.x + q.w ≤ 256 ∧ 0 ≤ q.y ∧ q.y + q.h ≤ 256 :=
  ⟨by rfl, by rfl, (label_quads_extent (fun _ _ => 0) source_601 (by rfl)).1 (by rfl)⟩

/-- Counterexample to C10 as stated: on a host that reports 709 the label
quads span, vertically, `[8,24]`, `[110,126]`, `[232,248]`, `[130,146]`,
`[242,258]` and `[-2,14]`; the fifth ends past 256 and the sixth starts below 0. -/
theorem label_quads_counterexample :
    source_709.colorspace_calc = 2 ∧
    ((create_graticule_vbuf (fun _ _ => (0 : ℚ)) source_709).bind fun s => s.graticule_vbuf).map
      (fun l => l.map fun q => (q.y, q.y + q.h))
    = some [(8, 24), (110, 126), (232, 248), (130, 146), (242, 258), (-2, 14)] ∧
    ¬ ((258 : ℚ) ≤ 256) ∧ ¬ ((0 : ℚ) ≤ -2) := by
  refine ⟨by rfl, ?_, by norm_num, by norm_num⟩
  rw [create_graticule_vbuf_eq (fun _ _ => (0 : ℚ)) source_709 (by rfl) 1 _ (by rfl) rfl]
  simp only [Option.bind_some, Option.map_some', labels_709 _ rfl]
  norm_num

end graticule_theorems

section skin_tone_theorems

variable {K : Type} [LinearOrderedField K]

/-- With an exact `hypotf`, the test `stl_norm > 1.0f` on integer arguments
is the test `a*a + b*b > 1` on the integers. -/
theorem hypot_gt_one_iff (hypotf : K → K → K)
    (hhyp : ∀ a b, 0 ≤ hypotf a b ∧ hypotf a b * hypotf a b = a * a + b * b) (a b : Int) :
    1 < hypotf (a : K) (b : K) ↔ 1 < a * a + b * b := by
  obtain ⟨h0, h1⟩ := hhyp (a : K) (b : K)
  constructor
  · intro h
    have h2 : (1 : K) < hypotf (a : K) (b : K) * hypotf (a : K) (b : K) := by nlinarith
    rw [h1] at h2
    exact_mod_cast h2
  · intro h
    have h2 : (1 : K) < (a : K) * a + b * b := by exact_mod_cast h
    rw [← h1] at h2
    by_contra hn
    push_neg at hn
    nlinarith

/-- The norm computed on line 456, as a function of the integer `(U, V)`. -/
theorem skin_tone_point_eq (hypotf : K → K → K) (colorspace_calc color : Int) :
    skin_tone_point hypotf colorspace_calc color =
      if 1 < hypotf (((skin_tone_uv colorspace_calc color).1 - 128 : Int) : K)
          (((skin_tone_uv colorspace_calc color).2 - 128 : Int) : K) then
        some ((((skin_tone_uv colorspace_calc color).1 - 128 : Int) : K) * 128 /
            hypotf (((skin_tone_uv colorspace_calc color).1 - 128 : Int) : K)
              (((skin_tone_uv colorspace_calc color).2 - 128 : Int) : K) + 128,
          (((skin_tone_uv colorspace_calc color).2 - 128 : Int) : K) * 128 /
            hypotf (((skin_tone_uv colorspace_calc color).1 - 128 : Int) : K)
              (((skin_tone_uv colorspace_calc color).2 - 128 : Int) : K) + 128)
      else none := by
  unfold skin_tone_point
  simp only [gt_iff_lt]
  push_cast
  rfl

/-- The box loop emits `12*16 = 192` vertices for either table. -/
theorem graticule_boxes_length (i : Nat) (tab : List (K × K)) (htab : (pp K)[i]? = some tab) :
    (graticule_boxes tab).length = 192 := by
  have hi : i = 0 ∨ i = 1 := by
    by_contra h
    push_neg at h
    have : 2 ≤ i := by omega
    have h2 : (pp K)[i]? = none := by
      apply List.getElem?_eq_none
      simp [pp]
      omega
    rw [h2] at htab
    cases htab
  rcases hi with h | h <;> subst h <;>
    simp only [pp, List.getElem?_cons_zero, List.getElem?_cons_succ, Option.some.injEq] at htab <;>
    subst htab <;> rfl

/-- C7: for every configured skin tone colour and each resolved standard,
`create_graticule_vbuf` (with an exact `hypotf`) emits the skin tone segment
if and only if `(U-128)^2 + (V-128)^2 > 1` over the integer converter outputs;
when the distance is `<= 1` the line geometry is exactly the `12*16 = 192`
corner-box vertices, otherwise it has 194 vertices, the last segment starting
at `(128, 128)`. -/
theorem skin_tone_segment_emitted_iff (hypotf : K → K → K)
    (hhyp : ∀ a b, 0 ≤ hypotf a b ∧ hypotf a b * hypotf a b = a * a + b * b)
    (src : vss_source K) (hnew : src.graticule_vbuf = none)
    (hcs : src.colorspace_calc = 1 ∨ src.colorspace_calc = 2) :
    ∃ s lines tab, create_graticule_vbuf hypotf src = some s ∧
      s.graticule_line_vbuf = some lines ∧
      pp_row (src.colorspace_calc - 1) = some tab ∧
      (skin_tone_line hypotf src.colorspace_calc src.graticule_skintone_color ≠ [] ↔
        1 < ((skin_tone_uv src.colorspace_calc src.graticule_skintone_color).1 - 128) ^ 2
          + ((skin_tone_uv src.colorspace_calc src.graticule_skintone_color).2 - 128) ^ 2) ∧
      (((skin_tone_uv src.colorspace_calc src.graticule_skintone_color).1 - 128) ^ 2
          + ((skin_tone_uv src.colorspace_calc src.graticule_skintone_color).2 - 128) ^ 2 ≤ 1 →
        lines = graticule_boxes tab ∧ lines.length = 192) ∧
      (1 < ((skin_tone_uv src.colorspace_calc src.graticule_skintone_color).1 - 128) ^ 2
          + ((skin_tone_uv src.colorspace_calc src.graticule_skintone_color).2 - 128) ^ 2 →
        ∃ e, lines = graticule_boxes tab ++ [(128, 128), e] ∧ lines.length = 194 ∧
          lines[192]? = some (128, 128) ∧ lines[193]? = some e) := by
  have hiff := hypot_gt_one_iff hypotf hhyp
    ((skin_tone_uv src.colorspace_calc src.graticule_skintone_color).1 - 128)
    ((skin_tone_uv src.colorspace_calc src.graticule_skintone_color).2 - 128)
  rw [← pow_two, ← pow_two] at hiff
  have hex : ∃ (i : Nat) (tab : List (K × K)),
      src.colorspace_calc = (i : Int) + 1 ∧ (pp K)[i]? = some tab := by
    rcases hcs with h | h
    · exact ⟨0, _, by simp [h], rfl⟩
    · exact ⟨1, _, by simp [h], rfl⟩
  obtain ⟨i, tab, hi, htab⟩ := hex
  have hrow : (pp_row (src.colorspace_calc - 1) : Option (List (K × K))) = some tab := by
    unfold pp_row
    rw [hi]
    simp [htab]
  have hlen := graticule_boxes_length i tab htab
  refine ⟨_, _, tab, create_graticule_vbuf_eq hypotf src hnew i tab hi htab, rfl, hrow, ?_, ?_, ?_⟩
  · rw [← hiff]
    unfold skin_tone_line
    rw [skin_tone_point_eq]
    split_ifs with h
    · exact ⟨fun _ => h, fun _ => by simp⟩
    · exact ⟨fun hne => absurd rfl hne, fun h2 => absurd h2 h⟩
  · intro hle
    have hn : ¬ 1 < hypotf
        (((skin_tone_uv src.colorspace_calc src.graticule_skintone_color).1 - 128 : Int) : K)
        (((skin_tone_uv src.colorspace_calc src.graticule_skintone_color).2 - 128 : Int) : K) := by
      rw [hiff]
      omega
    unfold skin_tone_line
    rw [skin_tone_point_eq, if_neg hn]
    simp [hlen]
  · intro hgt
    have hp : 1 < hypotf
        (((skin_tone_uv src.colorspace_calc src.graticule_skintone_color).1 - 128 : Int) : K)
        (((skin_tone_uv src.colorspace_calc src.graticule_skintone_color).2 - 128 : Int) : K) :=
      hiff.2 hgt
    unfold skin_tone_line
    rw [skin_tone_point_eq, if_pos hp]
    refine ⟨_, rfl, ?_, ?_, ?_⟩
    · simp [hlen]
    · rw [List.getElem?_append_right (by omega)]
      simp [hlen]
    · rw [List.getElem?_append_right (by omega)]
      simp [hlen]

/-- Witness of C7: the default skin tone colour under 709, with the square
root of the reals as `hypotf`. -/
theorem skin_tone_segment_emitted_iff_witness :
    ∃ (s : vss_source ℝ) (lines : List (ℝ × ℝ)),
      create_graticule_vbuf (fun a b => Real.sqrt (a * a + b * b))
        (vss_render_resolve (vss_create vss_get_defaults 0)
          (some video_colorspace.VIDEO_CS_709)) = some s ∧
      s.graticule_line_vbuf = some lines ∧ lines.length = 194 ∧
      lines[192]? = some (128, 128) := by
  obtain ⟨s, lines, tab, h1, h2, _, _, _, h3⟩ :=
    skin_tone_segment_emitted_iff (fun a b : ℝ => Real.sqrt (a * a + b * b))
      (fun a b => ⟨Real.sqrt_nonneg _, Real.mul_self_sqrt (add_nonneg (mul_self_nonneg a) (mul_self_nonneg b))⟩)
      (vss_render_resolve (vss_create vss_get_defaults 0) (some video_colorspace.VIDEO_CS_709))
      (by rfl) (Or.inr (by rfl))
  obtain ⟨e, _, h4, h5, _⟩ := h3 (by decide)
  exact ⟨s, lines, h1, h2, h4, h5⟩

end skin_tone_theorems

section skin_tone_clamp

variable {K : Type} [LinearOrderedField K]

/-- C3 (amended): with exact arithmetic, for every configured colour and each
standard, if the unclamped chrominance vector `(U-128, V-128)` has length
`L > 1`, the chrominance point used for the emitted line endpoint (before the
V-axis inversion) is `(128 + 128(U-128)/L, 128 + 128(V-128)/L)`: it lies in
the direction of `(U-128, V-128)` at distance exactly 128 from `(128, 128)`,
for every `L > 1`, also when `L < 128`; it is the unclamped `(U, V)` itself
only when `L = 128`. -/
theorem skin_tone_point_on_circle (hypotf : K → K → K)
    (hhyp : ∀ a b, 0 ≤ hypotf a b ∧ hypotf a b * hypotf a b = a * a + b * b)
    (colorspace_calc color : Int)
    (hL : 1 < hypotf (((skin_tone_uv colorspace_calc color).1 : K) - 128)
      (((skin_tone_uv colorspace_calc color).2 : K) - 128)) :
    ∃ p : K × K, skin_tone_point hypotf colorspace_calc color = some p ∧
      skin_tone_line hypotf colorspace_calc color = [(128, 128), (p.1, 255 - p.2)] ∧
      (p.1 - 128) * hypotf (((skin_tone_uv colorspace_calc color).1 : K) - 128)
          (((skin_tone_uv colorspace_calc color).2 : K) - 128)
        = 128 * (((skin_tone_uv colorspace_calc color).1 : K) - 128) ∧
      (p.2 - 128) * hypotf (((skin_tone_uv colorspace_calc color).1 : K) - 128)
          (((skin_tone_uv colorspace_calc color).2 : K) - 128)
        = 128 * (((skin_tone_uv colorspace_calc color).2 : K) - 128) ∧
      (p.1 - 128) * (p.1 - 128) + (p.2 - 128) * (p.2 - 128) = 128 * 128 ∧
      hypotf (p.1 - 128) (p.2 - 128) = 128 ∧
      (p = (((skin_tone_uv colorspace_calc color).1 : K), ((skin_tone_uv colorspace_calc color).2 : K))
        ↔ hypotf (((skin_tone_uv colorspace_calc color).1 : K) - 128)
            (((skin_tone_uv colorspace_calc color).2 : K) - 128) = 128) := by
  generalize hu : ((skin_tone_uv colorspace_calc color).1 : K) - 128 = du at hL ⊢
  generalize hv : ((skin_tone_uv colorspace_calc color).2 : K) - 128 = dv at hL ⊢
  obtain ⟨h0, h1⟩ := hhyp du dv
  have hne : hypotf du dv ≠ 0 := by
    intro h
    rw [h] at hL
    linarith
  have hp : skin_tone_point hypotf colorspace_calc color
      = some (du * 128 / hypotf du dv + 128, dv * 128 / hypotf du dv + 128) := by
    unfold skin_tone_point
    simp only [gt_iff_lt, hu, hv, hL, if_true]
  have e1 : (du * 128 / hypotf du dv + 128 - 128) * hypotf du dv = 128 * du := by
    field_simp
    ring
  have e2 : (dv * 128 / hypotf du dv + 128 - 128) * hypotf du dv = 128 * dv := by
    field_simp
    ring
  have e3 : (du * 128 / hypotf du dv + 128 - 128) * (du * 128 / hypotf du dv + 128 - 128)
      + (dv * 128 / hypotf du dv + 128 - 128) * (dv * 128 / hypotf du dv + 128 - 128)
      = 128 * 128 := by
    have : (du * 128 / hypotf du dv + 128 - 128) * (du * 128 / hypotf du dv + 128 - 128)
      + (dv * 128 / hypotf du dv + 128 - 128) * (dv * 128 / hypotf du dv + 128 - 128)
      = 128 * 128 * (du * du + dv * dv) / (hypotf du dv * hypotf du dv) := by
      field_simp
      ring
    rw [this, ← h1]
    field_simp
  refine ⟨_, hp, ?_, e1, e2, e3, ?_, ?_⟩
  · unfold skin_tone_line
    rw [hp]
  · obtain ⟨g0, g1⟩ := hhyp (du * 128 / hypotf du dv + 128 - 128)
      (dv * 128 / hypotf du dv + 128 - 128)
    rw [e3] at g1
    nlinarith
  · have hu2 : ((skin_tone_uv colorspace_calc color).1 : K) = du + 128 := by rw [← hu]; ring
    have hv2 : ((skin_tone_uv colorspace_calc color).2 : K) = dv + 128 := by rw [← hv]; ring
    rw [hu2, hv2, Prod.mk.injEq]
    constructor
    · rintro ⟨a1, a2⟩
      have b1 : du * (128 - hypotf du dv) = 0 := by
        have := e1
        rw [a1] at this
        linear_combination (-1 : K) * this
      have b2 : dv * (128 - hypotf du dv) = 0 := by
        have := e2
        rw [a2] at this
        linear_combination (-1 : K) * this
      by_contra hne2
      have hne3 : (128 - hypotf du dv) ≠ 0 := fun h => hne2 (by linarith)
      have c1 : du = 0 := by
        rcases mul_eq_zero.1 b1 with h | h
        · exact h
        · exact absurd h hne3
      have c2 : dv = 0 := by
        rcases mul_eq_zero.1 b2 with h | h
        · exact h
        · exact absurd h hne3
      rw [c1, c2] at h1
      nlinarith
    · intro h
      rw [h]
      constructor
      · field_simp
      · field_simp

/-- Witness of C3 (amended): the default skin tone colour under 709, with the
square root of the reals as `hypotf`. -/
theorem skin_tone_point_on_circle_witness :
    ∃ p : ℝ × ℝ,
      skin_tone_point (fun a b => Real.sqrt (a * a + b * b)) 2 SKIN_TONE_LINE = some p ∧
      (p.1 - 128) * (p.1 - 128) + (p.2 - 128) * (p.2 - 128) = 128 * 128 := by
  have huv : skin_tone_uv 2 SKIN_TONE_LINE = (118, 143) := by decide
  obtain ⟨p, h1, _, _, _, h2, _⟩ :=
    skin_tone_point_on_circle (fun a b : ℝ => Real.sqrt (a * a + b * b))
      (fun a b => ⟨Real.sqrt_nonneg _,
        Real.mul_self_sqrt (add_nonneg (mul_self_nonneg a) (mul_self_nonneg b))⟩)
      2 SKIN_TONE_LINE
      (by
        rw [huv]
        show (1 : ℝ) < Real.sqrt ((((118 : Int) : ℝ) - 128) * (((118 : Int) : ℝ) - 128)
          + ((((143 : Int) : ℝ) - 128) * (((143 : Int) : ℝ) - 128)))
        rw [Real.lt_sqrt (by norm_num)]
        norm_num)
  exact ⟨p, h1, h2⟩

/-- Counterexample to C3 as stated: for the default skin tone colour
`0x99ABCB` under 709 the converter gives `(U, V) = (118, 143)`, so
`L = sqrt 325` with `1 < L <= 128`; the endpoint computed by lines 458-459 is
`(128 - 1280/L, 128 + 1920/L)`, at distance 128 from `(128, 128)`, which is
neither `min(L, 128) = L` nor the unclamped `(118, 143)`. -/
theorem skin_tone_clamp_counterexample :
    skin_tone_uv 2 SKIN_TONE_LINE = (118, 143) ∧
    Real.sqrt (((118 : ℝ) - 128) * (118 - 128) + (143 - 128) * (143 - 128)) = Real.sqrt 325 ∧
    (1 < Real.sqrt 325 ∧ Real.sqrt 325 ≤ 128) ∧
    skin_tone_point (fun a b : ℝ => Real.sqrt (a * a + b * b)) 2 SKIN_TONE_LINE
      = some ((118 - 128) * 128 / Real.sqrt 325 + 128, (143 - 128) * 128 / Real.sqrt 325 + 128) ∧
    Real.sqrt (((118 - 128) * 128 / Real.sqrt 325 + 128 - 128)
        * ((118 - 128) * 128 / Real.sqrt 325 + 128 - 128)
      + ((143 - 128) * 128 / Real.sqrt 325 + 128 - 128)
        * ((143 - 128) * 128 / Real.sqrt 325 + 128 - 128)) = 128 ∧
    (128 : ℝ) ≠ min (Real.sqrt 325) 128 ∧
    (((118 : ℝ) - 128) * 128 / Real.sqrt 325 + 128, ((143 : ℝ) - 128) * 128 / Real.sqrt 325 + 128)
      ≠ ((118 : ℝ), (143 : ℝ)) := by
  have huv : skin_tone_uv 2 SKIN_TONE_LINE = (118, 143) := by decide
  have hsq : Real.sqrt 325 * Real.sqrt 325 = 325 := Real.mul_self_sqrt (by norm_num)
  have hpos : 0 ≤ Real.sqrt 325 := Real.sqrt_nonneg _
  have h1 : 1 < Real.sqrt 325 := by
    rw [Real.lt_sqrt (by norm_num)]
    norm_num
  have h2 : Real.sqrt 325 < 128 := by
    rw [Real.sqrt_lt (by norm_num) (by norm_num)]
    norm_num
  have hne : Real.sqrt 325 ≠ 0 := by linarith
  have harg : ((118 : ℝ) - 128) * (118 - 128) + (143 - 128) * (143 - 128) = 325 := by norm_num
  refine ⟨huv, by rw [harg], ⟨h1, le_of_lt h2⟩, ?_, ?_, ?_, ?_⟩
  · unfold skin_tone_point
    rw [huv]
    have e : ((((118 : Int) : ℝ) - 128) * (((118 : Int) : ℝ) - 128)
        + (((143 : Int) : ℝ) - 128) * (((143 : Int) : ℝ) - 128)) = 325 := by norm_num
    simp only [gt_iff_lt, e, h1, if_true]
    norm_num
  · have e : ((118 - 128) * 128 / Real.sqrt 325 + 128 - 128)
        * ((118 - 128) * 128 / Real.sqrt 325 + 128 - 128)
      + ((143 - 128) * 128 / Real.sqrt 325 + 128 - 128)
        * ((143 - 128) * 128 / Real.sqrt 325 + 128 - 128) = (128 : ℝ) * 128 := by
      field_simp
      nlinarith
    rw [e]
    exact Real.sqrt_mul_self (by norm_num)
  · rw [min_eq_left (le_of_lt h2)]
    exact fun h => absurd h (ne_of_gt h2)
  · intro h
    rw [Prod.mk.injEq] at h
    have h3 := h.1
    field_simp at h3
    nlinarith

end skin_tone_clamp

/-! ## The histogram -/

/-- One hit keeps the size of the histogram. -/
theorem vs_hit_length (dbuf : List Nat) (u v : Nat) : (vs_hit dbuf u v).length = dbuf.length := by
  unfold vs_hit
  simp only
  split_ifs <;> simp

/-- One hit adds one, saturating at 255, to the cell it indexes and leaves
every other cell as it was. -/
theorem vs_hit_getD (dbuf : List Nat) (u v i : Nat) (hc : vs_index u v < dbuf.length)
    (hle : dbuf.getD i 0 ≤ 255) :
    (vs_hit dbuf u v).getD i 0
      = min 255 (dbuf.getD i 0 + if vs_index u v = i then 1 else 0) := by
  unfold vs_hit
  simp only
  by_cases hi : vs_index u v = i
  · subst hi
    rw [if_pos rfl]
    by_cases h : dbuf.getD (vs_index u v) 0 < 255
    · rw [if_pos h, List.getD_eq_getElem?_getD, List.getElem?_set_self hc, Option.getD_some]
      omega
    · rw [if_neg h]
      omega
  · rw [if_neg hi]
    by_cases h : dbuf.getD (vs_index u v) 0 < 255
    · rw [if_pos h, List.getD_eq_getElem?_getD, List.getElem?_set_ne hi,
        ← List.getD_eq_getElem?_getD]
      omega
    · rw [if_neg h]
      omega

/-- The clearing loop keeps the size of the buffer. -/
theorem vs_clear_length (n i : Nat) (dbuf : List Nat) :
    (vs_clear n i dbuf).length = dbuf.length := by
  induction n generalizing i dbuf with
  | zero => rfl
  | succ n ih =>
    unfold vs_clear
    rw [ih, List.length_set]

/-- The clearing loop zeroes the cells `i .. i+n-1` and keeps the others. -/
theorem vs_clear_getD (n i j : Nat) (dbuf : List Nat) :
    (vs_clear n i dbuf).getD j 0 = if i ≤ j ∧ j < i + n then 0 else dbuf.getD j 0 := by
  induction n generalizing i dbuf with
  | zero =>
    unfold vs_clear
    have h : ¬ (i ≤ j ∧ j < i + 0) := by omega
    rw [if_neg h]
  | succ n ih =>
    unfold vs_clear
    rw [ih]
    by_cases hij : i = j
    · subst hij
      have h1 : ¬ (i + 1 ≤ i ∧ i < i + 1 + n) := by omega
      have h2 : (i ≤ i ∧ i < i + (n + 1)) := by omega
      rw [if_neg h1, if_pos h2, List.getD_eq_getElem?_getD, List.getElem?_set, if_pos rfl]
      split_ifs <;> rfl
    · rw [List.getD_eq_getElem?_getD, List.getElem?_set_ne hij, ← List.getD_eq_getElem?_getD]
      by_cases h : i + 1 ≤ j ∧ j < i + 1 + n
      · have h2 : (i ≤ j ∧ j < i + (n + 1)) := by omega
        rw [if_pos h, if_pos h2]
      · have h2 : ¬ (i ≤ j ∧ j < i + (n + 1)) := by omega
        rw [if_neg h, if_neg h2]

/-- A pixel read from the mapped surface indexes inside the histogram. -/
theorem vs_index_byte_lt (a b : Nat) : vs_index (a % 256) (b % 256) < 65536 := by
  unfold vs_index VS_SIZE
  omega

/-- The row loop advances the read pointer by 4 bytes per pixel, keeps the
size of the histogram, and adds to the cell `i`, saturating at 255, the
number of pixels of the row whose `(U, V)` indexes `i`. -/
theorem vs_row_spec (video_data : Nat → Nat) (i n vd : Nat) (dbuf : List Nat)
    (hlen : dbuf.length = 65536) (hle : dbuf.getD i 0 ≤ 255) :
    (vs_row video_data n vd dbuf).1 = vd + 4 * n ∧
    (vs_row video_data n vd dbuf).2.length = 65536 ∧
    (vs_row video_data n vd dbuf).2.getD i 0 = min 255 (dbuf.getD i 0 +
      ∑ x in Finset.range n,
        if vs_index (video_data (vd + 4 * x) % 256) (video_data (vd + 4 * x + 1) % 256) = i
        then 1 else 0) := by
  induction n generalizing vd dbuf with
  | zero =>
    unfold vs_row
    refine ⟨rfl, hlen, ?_⟩
    simp only [Finset.range_zero, Finset.sum_empty, add_zero]
    omega
  | succ n ih =>
    unfold vs_row
    simp only
    have hc : vs_index (video_data vd % 256) (video_data (vd + 1) % 256) < dbuf.length := by
      rw [hlen]
      exact vs_index_byte_lt _ _
    have hhit := vs_hit_getD dbuf (video_data vd % 256) (video_data (vd + 1) % 256) i hc hle
    have hlen2 : (vs_hit dbuf (video_data vd % 256) (video_data (vd + 1) % 256)).length = 65536 := by
      rw [vs_hit_length, hlen]
    have hle2 : (vs_hit dbuf (video_data vd % 256) (video_data (vd + 1) % 256)).getD i 0 ≤ 255 := by
      rw [hhit]
      omega
    obtain ⟨h1, h2, h3⟩ := ih (vd + 4) _ hlen2 hle2
    refine ⟨by rw [h1]; ring, h2, ?_⟩
    rw [h3, hhit, Finset.sum_range_succ']
    have hsum : (∑ x in Finset.range n,
        if vs_index (video_data (vd + 4 + 4 * x) % 256)
          (video_data (vd + 4 + 4 * x + 1) % 256) = i then 1 else 0)
        = ∑ x in Finset.range n,
        if vs_index (video_data (vd + 4 * (x + 1)) % 256)
          (video_data (vd + 4 * (x + 1) + 1) % 256) = i then 1 else 0 := by
      apply Finset.sum_congr rfl
      intro x _
      have e : vd + 4 + 4 * x = vd + 4 * (x + 1) := by ring
      rw [e]
    rw [hsum]
    simp only [Nat.mul_zero, Nat.add_zero]
    omega

/-- The loop over the rows keeps the size of the histogram and adds to the
cell `i`, saturating at 255, the number of pixels whose `(U, V)` indexes `i`;
row `y` starts `y * (4 * width + vd_add)` bytes after the first. -/
theorem vs_rows_spec (video_data : Nat → Nat) (width vd_add i n vd : Nat) (dbuf : List Nat)
    (hlen : dbuf.length = 65536) (hle : dbuf.getD i 0 ≤ 255) :
    (vs_rows video_data width vd_add n vd dbuf).length = 65536 ∧
    (vs_rows video_data width vd_add n vd dbuf).getD i 0 = min 255 (dbuf.getD i 0 +
      ∑ y in Finset.range n, ∑ x in Finset.range width,
        if vs_index (video_data (vd + y * (4 * width + vd_add) + 4 * x) % 256)
          (video_data (vd + y * (4 * width + vd_add) + 4 * x + 1) % 256) = i
        then 1 else 0) := by
  induction n generalizing vd dbuf with
  | zero =>
    unfold vs_rows
    refine ⟨hlen, ?_⟩
    simp only [Finset.range_zero, Finset.sum_empty, add_zero]
    omega
  | succ n ih =>
    unfold vs_rows
    simp only
    obtain ⟨h1, h2, h3⟩ := vs_row_spec video_data i width vd dbuf hlen hle
    have hle2 : (vs_row video_data width vd dbuf).2.getD i 0 ≤ 255 := by
      rw [h3]
      omega
    obtain ⟨g1, g2⟩ := ih ((vs_row video_data width vd dbuf).1 + vd_add) _ h2 hle2
    refine ⟨g1, ?_⟩
    rw [g2, h3, h1, Finset.sum_range_succ']
    have hsum : (∑ y in Finset.range n, ∑ x in Finset.range width,
        if vs_index (video_data (vd + 4 * width + vd_add + y * (4 * width + vd_add) + 4 * x) % 256)
          (video_data (vd + 4 * width + vd_add + y * (4 * width + vd_add) + 4 * x + 1) % 256) = i
        then 1 else 0)
        = ∑ y in Finset.range n, ∑ x in Finset.range width,
        if vs_index (video_data (vd + (y + 1) * (4 * width + vd_add) + 4 * x) % 256)
          (video_data (vd + (y + 1) * (4 * width + vd_add) + 4 * x + 1) % 256) = i
        then 1 else 0 := by
      apply Finset.sum_congr rfl
      intro y _
      apply Finset.sum_congr rfl
      intro x _
      have e : vd + 4 * width + vd_add + y * (4 * width + vd_add) + 4 * x
          = vd + (y + 1) * (4 * width + vd_add) + 4 * x := by ring
      rw [e]
    rw [hsum]
    simp only [Nat.zero_mul, Nat.add_zero]
    omega

/-- The count of the specification, as the double sum that the loops build. -/
theorem pixel_count_eq_sum (video_data : Nat → Nat) (w h s U V : Nat) (hU : U < 256)
    (hV : V < 256) :
    (∑ y in Finset.range h, ∑ x in Finset.range w,
      if vs_index (video_data (0 + y * s + 4 * x) % 256)
        (video_data (0 + y * s + 4 * x + 1) % 256) = vs_index U V then 1 else 0)
    = pixel_count video_data w h s U V := by
  unfold pixel_count
  rw [Finset.card_filter, Finset.sum_product_right]
  apply Finset.sum_congr rfl
  intro y _
  apply Finset.sum_congr rfl
  intro x _
  have e : 0 + y * s + 4 * x = y * s + 4 * x := by ring
  rw [e]
  have hinj : ∀ a b : Nat, a < 256 → b < 256 →
      (vs_index a b = vs_index U V ↔ a = U ∧ b = V) := by
    intro a b ha hb
    unfold vs_index VS_SIZE
    omega
  have hiff := hinj (video_data (y * s + 4 * x) % 256) (video_data (y * s + 4 * x + 1) % 256)
    (Nat.mod_lt _ (by norm_num)) (Nat.mod_lt _ (by norm_num))
  by_cases hp : vs_index (video_data (y * s + 4 * x) % 256)
      (video_data (y * s + 4 * x + 1) % 256) = vs_index U V
  · rw [if_pos hp, if_pos (hiff.1 hp)]
  · rw [if_neg hp, if_neg (fun h => hp (hiff.2 h))]

/-- The histogram that `vss_draw_vectorscope` leaves in `tex_buf` and uploads
to `tex_vs`: 65536 cells, the cell of `(U, V)` holding `min(255, n(U,V))`. -/
theorem vss_draw_vectorscope_cells {K : Type} (src : vss_source K) (video_data : Nat → Nat)
    (video_line : Nat) (hline : video_line < 2 ^ 32) (hstride : 4 * src.known_width ≤ video_line)
    (hbuf : ∀ b, src.tex_buf = some b → b.length = VS_SIZE * VS_SIZE) :
    ∃ hist, (vss_draw_vectorscope src video_data video_line).tex_buf = some hist ∧
      (vss_draw_vectorscope src video_data video_line).tex_vs = some hist ∧
      hist.length = 65536 ∧
      ∀ U V, U < 256 → V < 256 → hist.getD (vs_index U V) 0
        = min 255 (pixel_count video_data src.known_width src.known_height video_line U V) := by
  have hsz : VS_SIZE * VS_SIZE = 65536 := by norm_num [VS_SIZE]
  have hadd : (video_line + 2 ^ 32 - (src.known_width * 4) % 2 ^ 32) % 2 ^ 32
      = video_line - 4 * src.known_width := by
    have h1 : (src.known_width * 4) % 2 ^ 32 = 4 * src.known_width := by
      rw [Nat.mod_eq_of_lt (by omega)]
      ring
    rw [h1]
    have h2 : video_line + 2 ^ 32 - 4 * src.known_width
        = (video_line - 4 * src.known_width) + 2 ^ 32 := by omega
    rw [h2, Nat.add_mod_right, Nat.mod_eq_of_lt (by omega)]
  have hstep : 4 * src.known_width + (video_line - 4 * src.known_width) = video_line := by omega
  have hlen0 : (match src.tex_buf with
      | none => List.replicate (VS_SIZE * VS_SIZE) 0
      | some b => b).length = 65536 := by
    cases hb : src.tex_buf with
    | none =>
      show (List.replicate (VS_SIZE * VS_SIZE) 0).length = 65536
      rw [List.length_replicate]
      exact hsz
    | some b =>
      show b.length = 65536
      rw [hbuf b hb]
      exact hsz
  have hlen1 := vs_clear_length (VS_SIZE * VS_SIZE) 0 (match src.tex_buf with
      | none => List.replicate (VS_SIZE * VS_SIZE) 0
      | some b => b)
  rw [hlen0] at hlen1
  have hzero : ∀ j, (vs_clear (VS_SIZE * VS_SIZE) 0 (match src.tex_buf with
      | none => List.replicate (VS_SIZE * VS_SIZE) 0
      | some b => b)).getD j 0 = 0 := by
    intro j
    rw [vs_clear_getD]
    split_ifs with h
    · rfl
    · rw [List.getD_eq_getElem?_getD, List.getElem?_eq_none]
      · rfl
      · rw [hlen0]
        rw [hsz] at h
        omega
  refine ⟨_, rfl, rfl, ?_, ?_⟩
  · exact (vs_rows_spec video_data _ _ 0 _ 0 _ hlen1 (by rw [hzero]; omega)).1
  · intro U V hU hV
    have h := (vs_rows_spec video_data src.known_width
      ((video_line + 2 ^ 32 - (src.known_width * 4) % 2 ^ 32) % 2 ^ 32) (vs_index U V)
      src.known_height 0 _ hlen1 (by rw [hzero]; omega)).2
    rw [hzero, hadd, hstep, pixel_count_eq_sum video_data _ _ _ U V hU hV, Nat.zero_add] at h
    show (vs_rows video_data src.known_width
      ((video_line + 2 ^ 32 - (src.known_width * 4) % 2 ^ 32) % 2 ^ 32) src.known_height 0 _).getD
        (vs_index U V) 0 = _
    rw [hadd]
    exact h

/-- Reading a cell inside the buffer. -/
theorem getElem?_eq_some_getD (l : List Nat) (i : Nat) (h : i < l.length) :
    l[i]? = some (l.getD i 0) := by
  rw [List.getD_eq_getElem?_getD, List.getElem?_eq_getElem h, Option.getD_some]

/-- A frame whose pixels all carry `(U, V)` has `w*h` pixels with that pair
and none with any other. -/
theorem pixel_count_solid (video_data : Nat → Nat) (w h s U V : Nat)
    (hsolid : ∀ x y, x < w → y < h →
      video_data (y * s + 4 * x) % 256 = U ∧ video_data (y * s + 4 * x + 1) % 256 = V) :
    pixel_count video_data w h s U V = w * h ∧
    ∀ U2 V2, ¬ (U2 = U ∧ V2 = V) → pixel_count video_data w h s U2 V2 = 0 := by
  unfold pixel_count
  constructor
  · rw [Finset.filter_true_of_mem]
    · rw [Finset.card_product, Finset.card_range, Finset.card_range]
    · intro p hp
      rw [Finset.mem_product, Finset.mem_range, Finset.mem_range] at hp
      exact hsolid p.1 p.2 hp.1 hp.2
  · intro U2 V2 hne
    rw [Finset.card_eq_zero, Finset.filter_eq_empty_iff]
    intro p hp hcon
    rw [Finset.mem_product, Finset.mem_range, Finset.mem_range] at hp
    have h1 := hsolid p.1 p.2 hp.1 hp.2
    exact hne ⟨by rw [← hcon.1, h1.1], by rw [← hcon.2, h1.2]⟩

/-- C1: for every source buffer of pixel width `w`, height `h` and row stride
`s >= 4*w` (a `uint32_t`), and for any prior contents of the histogram
buffer, after `vss_draw_vectorscope` the histogram has 256x256 cells and the
cell at index `U + 256*(255-V)` holds `min(255, n(U,V))`, where `n(U,V)` is the
number of pixels `(x,y)`, `x<w`, `y<h`, whose bytes at offsets `y*s+4x` and
`y*s+4x+1` are `U` and `V`.  Hence every cell is in `[0,255]`, more than 255
hits leave a cell at exactly 255, and a frame whose pixels all carry the same
`(U,V)` leaves `min(255, w*h)` in the cell of `(U,V)` and 0 in every other
cell, which for a frame of at least one pixel is exactly one non-zero cell. -/
theorem vss_draw_vectorscope_histogram {K : Type} (src : vss_source K)
    (video_data : Nat → Nat) (video_line : Nat) (hline : video_line < 2 ^ 32)
    (hstride : 4 * src.known_width ≤ video_line)
    (hbuf : ∀ b, src.tex_buf = some b → b.length = VS_SIZE * VS_SIZE) :
    ∃ hist, (vss_draw_vectorscope src video_data video_line).tex_buf = some hist ∧
      (vss_draw_vectorscope src video_data video_line).tex_vs = some hist ∧
      hist.length = VS_SIZE * VS_SIZE ∧
      (∀ U V, U < 256 → V < 256 → hist[vs_index U V]? = some (min 255
        (pixel_count video_data src.known_width src.known_height video_line U V))) ∧
      (∀ i, i < VS_SIZE * VS_SIZE → ∃ c, hist[i]? = some c ∧ c ≤ 255) ∧
      (∀ U V, U < 256 → V < 256 →
        255 < pixel_count video_data src.known_width src.known_height video_line U V →
        hist[vs_index U V]? = some 255) ∧
      (∀ U V, U < 256 → V < 256 →
        (∀ x y, x < src.known_width → y < src.known_height →
          video_data (y * video_line + 4 * x) % 256 = U ∧
          video_data (y * video_line + 4 * x + 1) % 256 = V) →
        hist[vs_index U V]? = some (min 255 (src.known_width * src.known_height)) ∧
        (∀ i, i < VS_SIZE * VS_SIZE → i ≠ vs_index U V → hist[i]? = some 0) ∧
        (0 < src.known_width → 0 < src.known_height →
          ∀ i, i < VS_SIZE * VS_SIZE → (hist[i]? ≠ some 0 ↔ i = vs_index U V))) := by
  have hsz : VS_SIZE * VS_SIZE = 65536 := by norm_num [VS_SIZE]
  obtain ⟨hist, h1, h2, h3, h4⟩ :=
    vss_draw_vectorscope_cells src video_data video_line hline hstride hbuf
  have hcell : ∀ U V, U < 256 → V < 256 → hist[vs_index U V]? = some (min 255
      (pixel_count video_data src.known_width src.known_height video_line U V)) := by
    intro U V hU hV
    have hi : vs_index U V < hist.length := by
      rw [h3]
      unfold vs_index VS_SIZE
      omega
    rw [getElem?_eq_some_getD hist _ hi, h4 U V hU hV]
  have hdecomp : ∀ i, i < 65536 → i = vs_index (i % 256) (255 - i / 256) := by
    intro i hi
    unfold vs_index VS_SIZE
    omega
  refine ⟨hist, h1, h2, by rw [h3, hsz], hcell, ?_, ?_, ?_⟩
  · intro i hi
    rw [hsz] at hi
    rw [hdecomp i hi, hcell _ _ (Nat.mod_lt _ (by norm_num)) (by omega)]
    exact ⟨_, rfl, by omega⟩
  · intro U V hU hV hgt
    rw [hcell U V hU hV]
    congr 1
    omega
  · intro U V hU hV hsolid
    obtain ⟨hs1, hs2⟩ := pixel_count_solid video_data _ _ _ U V hsolid
    have hzero : ∀ i, i < VS_SIZE * VS_SIZE → i ≠ vs_index U V → hist[i]? = some 0 := by
      intro i hi hne
      rw [hsz] at hi
      have hne2 : ¬ (i % 256 = U ∧ 255 - i / 256 = V) := by
        rintro ⟨a, b⟩
        apply hne
        rw [hdecomp i hi, a, b]
      rw [hdecomp i hi, hcell _ _ (Nat.mod_lt _ (by norm_num)) (by omega), hs2 _ _ hne2]
      rfl
    refine ⟨by rw [hcell U V hU hV, hs1], hzero, ?_⟩
    intro hw hh i hi
    constructor
    · intro hne
      by_contra hcon
      exact hne (hzero i hi hcon)
    · intro hi2
      rw [hi2, hcell U V hU hV, hs1]
      have hpos : 0 < src.known_width * src.known_height := Nat.mul_pos hw hh
      intro hcon
      injection hcon with hcon
      omega

/-- Witness of C1: a 2x2 solid red frame with row stride 12 leaves 4 in the
cell of red under 709, `(U, V) = (103, 240)`, and 0 in every other cell. -/
theorem vss_draw_vectorscope_histogram_witness :
    (RGB2U_709 255 0 0, RGB2V_709 255 0 0) = (103, 240) ∧
    ∃ hist, (vss_draw_vectorscope small_frame_source solid_red_frame 12).tex_buf = some hist ∧
      hist[vs_index 103 240]? = some 4 ∧
      ∀ i, i < VS_SIZE * VS_SIZE → i ≠ vs_index 103 240 → hist[i]? = some 0 := by
  refine ⟨by decide, ?_⟩
  obtain ⟨hist, h1, _, _, _, _, _, h7⟩ :=
    vss_draw_vectorscope_histogram small_frame_source solid_red_frame 12 (by norm_num)
      (by decide) (by intro b hb; cases hb)
  obtain ⟨a, b, _⟩ := h7 103 240 (by norm_num) (by norm_num) (by
    intro x y hx hy
    have hx2 : x < 2 := hx
    have hy2 : y < 2 := hy
    interval_cases x <;> interval_cases y <;> decide)
  exact ⟨hist, h1, a, b⟩

end Vectorscope
